import Mathlib

set_option maxRecDepth 8000

/- Verification of the BILL-DIGITIZER backend (src/backend/nvidia_ocr.py,
   streamlit_app.py, nat_sql_nvidia.py, db.py).  Python string operations are
   modelled character-exactly over `List Char`; Python dict/JSON values are
   modelled by the inductive `Json`; the SQLite layer is modelled by an
   explicit transactional state `Db` with committed and pending rows. -/

/-- Whitespace characters removed by Python `str.strip()`. -/
def pyWhitespace : List Char := [' ', '\t', '\n', '\r', '\x0b', '\x0c']

/-- Python `str.strip()`: drop leading and trailing whitespace. -/
def pyStrip (s : String) : String :=
  String.mk (((s.data.dropWhile (pyWhitespace.contains ·)).reverse.dropWhile
      (pyWhitespace.contains ·)).reverse)

/-- Core of Python `str.replace(pat, repl)`: fuel-indexed scan over the
character list.  With fuel at least the length of the list (and a nonempty
pattern, as in every call site of the sources) this is exactly Python's
non-overlapping left-to-right replacement of every occurrence. -/
def pyReplaceCore (pat repl : List Char) : Nat → List Char → List Char
  | 0, s => s
  | _ + 1, [] => []
  | n + 1, c :: rest =>
    if pat.isPrefixOf (c :: rest) && !pat.isEmpty then
      repl ++ pyReplaceCore pat repl n ((c :: rest).drop pat.length)
    else
      c :: pyReplaceCore pat repl n rest

/-- Python `s.replace(pat, repl)`. -/
def pyReplace (s pat repl : String) : String :=
  String.mk (pyReplaceCore pat.data repl.data (s.data.length + 1) s.data)

/-- Python `s.startswith(pat)`. -/
def pyStartsWith (s pat : String) : Bool := pat.data.isPrefixOf s.data

/-- Python `s.endswith(pat)`. -/
def pyEndsWith (s pat : String) : Bool := pat.data.isSuffixOf s.data

/-- Python `s.upper()` (ASCII, as used on SQL text in the sources). -/
def pyUpper (s : String) : String := String.mk (s.data.map Char.toUpper)

/-- Python `s.lower()` (ASCII, as used on SQL text and file names). -/
def pyLower (s : String) : String := String.mk (s.data.map Char.toLower)

/-- Scan used by the Python substring test `pat in s`. -/
def subOccursL (pat : List Char) : List Char → Bool
  | [] => pat.isEmpty
  | c :: rest => pat.isPrefixOf (c :: rest) || subOccursL pat rest

/-- Python substring containment `pat in s`. -/
def containsSub (s pat : String) : Bool := subOccursL pat.data s.data

/-- Python `s.find(c)` for a single character: index of the first occurrence
(`none` models the return value -1). -/
def findCharIdx (c : Char) : List Char → Option Nat
  | [] => none
  | x :: xs => if x = c then some 0 else (findCharIdx c xs).map (· + 1)

/-- Python `s.rfind(c)` for a single character: index of the last occurrence. -/
def rfindCharIdx (c : Char) (l : List Char) : Option Nat :=
  (findCharIdx c l.reverse).map (fun i => l.length - 1 - i)

/-- Python slice `s[a:b]` for 0 ≤ a ≤ b. -/
def pySlice (s : String) (a b : Nat) : String :=
  String.mk ((s.data.drop a).take (b - a))

/-- Python slice `s[:n]`. -/
def pyTake (s : String) (n : Nat) : String := String.mk (s.data.take n)

/-- JSON / Python-dict values flowing through the pipeline. -/
inductive Json where
  | null : Json
  | bool : Bool → Json
  | int : Int → Json
  | num : Rat → Json
  | str : String → Json
  | arr : List Json → Json
  | obj : List (String × Json) → Json

/-- Key lookup in the association list of a JSON object (Python `d[k]` /
`k in d`; dictionaries have unique keys, so first match suffices). -/
def objLookup : List (String × Json) → String → Option Json
  | [], _ => none
  | (k, v) :: rest, key => if k = key then some v else objLookup rest key

/-- Lookup of a top-level key of a JSON value (`none` on non-objects). -/
def Json.lookupKey : Json → String → Option Json
  | .obj kvs, key => objLookup kvs key
  | _, _ => none

/-- Python `key in d` for a JSON object. -/
def Json.hasKey (j : Json) (key : String) : Bool := (j.lookupKey key).isSome

/-- Behaviour of `json.loads` on a candidate string that starts with a brace:
it either returns the parsed object's key/value pairs or raises a
`json.JSONDecodeError` carrying a message (`Except.error`).  The claims about
`parse_ocr_response` are proved for every such behaviour. -/
abbrev Loads := String → Except String (List (String × Json))

/-- Default skeleton merged into parsed data, nvidia_ocr.py lines 109-114. -/
def defaultStructure : List (String × Json) :=
  [("vendor", Json.obj [("name", Json.str ""), ("address", Json.str ""),
      ("phone", Json.str ""), ("email", Json.str "")]),
   ("order_details", Json.obj [("invoice_number", Json.str ""),
      ("invoice_date", Json.str ""), ("due_date", Json.str ""),
      ("po_number", Json.str "")]),
   ("items", Json.arr []),
   ("payment_details", Json.obj [("subtotal", Json.num 0), ("tax", Json.num 0),
      ("total", Json.num 0), ("currency", Json.str "USD")])]

/-- One step of the merge loop `for key in default_structure: if key not in
parsed_data: parsed_data[key] = default_structure[key]` (dict insertion
appends the new key at the end). -/
def mergeStep (acc : List (String × Json)) (kv : String × Json) :
    List (String × Json) :=
  if (objLookup acc kv.1).isSome then acc else acc ++ [kv]

/-- Merge of parsed data with the default skeleton, nvidia_ocr.py 117-119. -/
def mergeDefaults (parsed : List (String × Json)) : List (String × Json) :=
  defaultStructure.foldl mergeStep parsed

/-- Fence-marker stripping and whitespace trimming applied to the raw model
text, nvidia_ocr.py lines 92-98. -/
def cleanedResponse (response_text : String) : String :=
  let t := pyStrip response_text
  if pyStartsWith t "```json" then
    pyStrip (pyReplace (pyReplace t "```json" "") "```" "")
  else if pyStartsWith t "```" then
    pyStrip (pyReplace t "```" "")
  else t

/-- Brace-delimited JSON candidate, nvidia_ocr.py lines 101-105: substring
from the first brace to one past the last closing brace, provided the first
index precedes the end index (Python `start_idx != -1 and end_idx >
start_idx`, with `end_idx = rfind + 1` and `rfind = -1` mapped to 0). -/
def jsonCandidate (t : String) : Option String :=
  match findCharIdx '{' t.data with
  | none => none
  | some start_idx =>
    let end_idx := match rfindCharIdx '}' t.data with
      | some j => j + 1
      | none => 0
    if start_idx < end_idx then some (pySlice t start_idx end_idx) else none

/-- The Response Normalizer `parse_ocr_response`, nvidia_ocr.py lines 88-142,
parameterised by the behaviour of `json.loads` on the candidate string.  All
string operations of the source are total, `json.JSONDecodeError` is caught,
so the function is total (never raises) for every string input; only a
non-string argument (not representable here) raises in Python. -/
def parse_ocr_response (loads : Loads) (response_text : String) : Json :=
  let t := cleanedResponse response_text
  match jsonCandidate t with
  | some cand =>
    match loads cand with
    | .ok parsed => Json.obj (mergeDefaults parsed)
    | .error e =>
      Json.obj [("error", Json.str ("Failed to parse JSON: " ++ e)),
        ("raw_response", Json.str (pyTake t 1000)),
        ("vendor", Json.obj [("name", Json.str "Parse Error")]),
        ("order_details", Json.obj []),
        ("items", Json.arr []),
        ("payment_details", Json.obj [])]
  | none =>
    Json.obj [("raw_response", Json.str t),
      ("vendor", Json.obj [("name", Json.str "Unknown")]),
      ("order_details", Json.obj []),
      ("items", Json.arr []),
      ("payment_details", Json.obj [])]

/-- A `loads` behaviour that always reports a decode error; used to evaluate
the normalizer on concrete degraded inputs (the branch under test never
invokes `loads`). -/
def loadsFail : Loads := fun _ => Except.error "invalid"

theorem objLookup_append_isSome (l1 l2 : List (String × Json)) (k : String)
    (h : (objLookup l1 k).isSome = true) :
    (objLookup (l1 ++ l2) k).isSome = true := by
  induction l1 with
  | nil => simp [objLookup] at h
  | cons a t ih =>
    obtain ⟨k', v⟩ := a
    by_cases hk : k' = k
    · simp [objLookup, hk]
    · simp only [objLookup, if_neg hk] at h
      simpa [objLookup, hk] using ih h

theorem objLookup_append_singleton (l : List (String × Json)) (k : String)
    (v : Json) : (objLookup (l ++ [(k, v)]) k).isSome = true := by
  induction l with
  | nil => simp [objLookup]
  | cons a t ih =>
    obtain ⟨k', v'⟩ := a
    by_cases hk : k' = k
    · simp [objLookup, hk]
    · simpa [objLookup, hk] using ih

theorem mergeStep_mono (acc : List (String × Json)) (kv : String × Json)
    (k : String) (h : (objLookup acc k).isSome = true) :
    (objLookup (mergeStep acc kv) k).isSome = true := by
  unfold mergeStep
  split
  · exact h
  · exact objLookup_append_isSome acc [kv] k h

theorem mergeStep_self (acc : List (String × Json)) (kv : String × Json) :
    (objLookup (mergeStep acc kv) kv.1).isSome = true := by
  unfold mergeStep
  split
  · assumption
  · obtain ⟨k, v⟩ := kv
    exact objLookup_append_singleton acc k v

theorem foldl_mergeStep_present (ds : List (String × Json)) :
    ∀ (acc : List (String × Json)) (k : String),
    (k ∈ ds.map Prod.fst ∨ (objLookup acc k).isSome = true) →
    (objLookup (ds.foldl mergeStep acc) k).isSome = true := by
  induction ds with
  | nil =>
    intro acc k h
    rcases h with h | h
    · simp at h
    · simpa using h
  | cons d ds ih =>
    intro acc k h
    have hstep : k ∈ ds.map Prod.fst ∨
        (objLookup (mergeStep acc d) k).isSome = true := by
      rcases h with h | h
      · rcases (by simpa using h : k = d.1 ∨ k ∈ ds.map Prod.fst) with rfl | h
        · exact Or.inr (mergeStep_self acc d)
        · exact Or.inl h
      · exact Or.inr (mergeStep_mono acc d k h)
    simpa [List.foldl] using ih (mergeStep acc d) k hstep

theorem defaultKeys_eq : defaultStructure.map Prod.fst =
    ["vendor", "order_details", "items", "payment_details"] := rfl

/-- Helper shared by the group-key claims: every key of the default skeleton's
top level is present in the normalizer's output, whatever `json.loads` did. -/
theorem parse_groups_present (loads : Loads) (text : String) (k : String)
    (hk : k ∈ ["vendor", "order_details", "items", "payment_details"]) :
    (parse_ocr_response loads text).hasKey k = true := by
  have hk' : k = "vendor" ∨ k = "order_details" ∨ k = "items" ∨
      k = "payment_details" := by simpa using hk
  cases hc : jsonCandidate (cleanedResponse text) with
  | none =>
    simp only [parse_ocr_response, hc]
    rcases hk' with rfl | rfl | rfl | rfl <;> rfl
  | some cand =>
    cases hl : loads cand with
    | error e =>
      simp only [parse_ocr_response, hc, hl]
      rcases hk' with rfl | rfl | rfl | rfl <;> rfl
    | ok parsed =>
      simp only [parse_ocr_response, hc, hl]
      show (objLookup (mergeDefaults parsed) k).isSome = true
      refine foldl_mergeStep_present defaultStructure parsed k (Or.inl ?_)
      rw [defaultKeys_eq]
      exact hk

/-- C1: for every raw extraction text, however malformed, and every behaviour
of the strict JSON parse, `parse_ocr_response` returns a record in which the
four top-level group keys vendor, order_details, items and payment_details
are all present.  Totality of the definition models that the Python function
never raises for string input (only a non-string argument, not representable
here, raises). -/
theorem normalize_always_returns_groups (loads : Loads) (text : String) :
    (parse_ocr_response loads text).hasKey "vendor" = true
    ∧ (parse_ocr_response loads text).hasKey "order_details" = true
    ∧ (parse_ocr_response loads text).hasKey "items" = true
    ∧ (parse_ocr_response loads text).hasKey "payment_details" = true :=
  ⟨parse_groups_present loads text "vendor" (by simp),
   parse_groups_present loads text "order_details" (by simp),
   parse_groups_present loads text "items" (by simp),
   parse_groups_present loads text "payment_details" (by simp)⟩

/-- C2 counterexample: on the empty input the normalizer returns
`order_details` as an empty object, so the nested key `invoice_number` is
absent — contradicting the claim that every nested field key is present. -/
theorem nested_key_missing :
    ((parse_ocr_response loadsFail "").lookupKey "order_details").map
      (fun j => j.hasKey "invoice_number") = some false := rfl

/-- C2 amended: every key of the four top-level groups is present in the
returned record regardless of how malformed the input was; nested field keys
(such as order_details.invoice_number) are not guaranteed. -/
theorem normalize_group_keys (loads : Loads) (text : String) (k : String)
    (hk : k ∈ ["vendor", "order_details", "items", "payment_details"]) :
    (parse_ocr_response loads text).hasKey k = true :=
  parse_groups_present loads text k hk

/-- C2 witness: the amended theorem evaluated at a concrete degraded input. -/
theorem normalize_group_keys_checked :
    (parse_ocr_response loadsFail "").hasKey "vendor" = true :=
  normalize_group_keys loadsFail "" "vendor" (by simp)

/-- C7 counterexample: on input "  x  " (no braces) the degraded record's
raw_response is "x" — the stripped text, which is neither the input "  x  "
nor the input bounded to the 1000-character maximum the code uses (every
truncation of "  x  " starts with a space, "x" does not). -/
theorem degraded_raw_not_input :
    (parse_ocr_response loadsFail "  x  ").lookupKey "raw_response"
      = some (Json.str "x")
    ∧ ("x" : String) ≠ "  x  "
    ∧ ("x" : String) ≠ pyTake "  x  " 1000 := by
  refine ⟨rfl, by decide, by decide⟩

/-- C7 amended: on the no-JSON branch raw_response equals the fence-stripped,
whitespace-trimmed text (not the original input, and unbounded) with sentinel
vendor name "Unknown"; on the invalid-JSON branch raw_response equals that
cleaned text truncated to 1000 characters with sentinel vendor name
"Parse Error"; the two sentinels are distinct, so the two degraded kinds are
distinguishable. -/
theorem degraded_raw_spec (loads : Loads) (text : String) :
    (jsonCandidate (cleanedResponse text) = none →
      (parse_ocr_response loads text).lookupKey "raw_response"
          = some (Json.str (cleanedResponse text))
      ∧ (parse_ocr_response loads text).lookupKey "vendor"
          = some (Json.obj [("name", Json.str "Unknown")]))
    ∧ (∀ cand e, jsonCandidate (cleanedResponse text) = some cand →
        loads cand = Except.error e →
        (parse_ocr_response loads text).lookupKey "raw_response"
            = some (Json.str (pyTake (cleanedResponse text) 1000))
        ∧ (parse_ocr_response loads text).lookupKey "vendor"
            = some (Json.obj [("name", Json.str "Parse Error")]))
    ∧ ("Unknown" : String) ≠ "Parse Error" := by
  refine ⟨fun hc => ?_, fun cand e hc hl => ?_, by decide⟩
  · simp only [parse_ocr_response, hc]
    exact ⟨rfl, rfl⟩
  · simp only [parse_ocr_response, hc, hl]
    exact ⟨rfl, rfl⟩

/-- C7 witness: the amended theorem evaluated on both degraded branches at
concrete inputs ("" has no braces; "\x7bbad" has a brace candidate rejected by
the strict parse). -/
theorem degraded_raw_spec_checked :
    ((parse_ocr_response loadsFail "").lookupKey "raw_response"
        = some (Json.str (cleanedResponse ""))
      ∧ (parse_ocr_response loadsFail "").lookupKey "vendor"
        = some (Json.obj [("name", Json.str "Unknown")]))
    ∧ ((parse_ocr_response loadsFail "\x7bbad\x7d").lookupKey "raw_response"
        = some (Json.str (pyTake (cleanedResponse "\x7bbad\x7d") 1000))
      ∧ (parse_ocr_response loadsFail "\x7bbad\x7d").lookupKey "vendor"
        = some (Json.obj [("name", Json.str "Parse Error")])) :=
  ⟨(degraded_raw_spec loadsFail "").1 rfl,
   (degraded_raw_spec loadsFail "\x7bbad\x7d").2.1 "\x7bbad\x7d" "invalid"
     rfl rfl⟩

/-- Post-processing of the translated model text in `NL2SQLConverter.convert`,
nat_sql_nvidia.py lines 94-97: strip, remove code-fence markers, strip. -/
def convertPostprocess (content : String) : String :=
  pyStrip (pyReplace (pyReplace (pyStrip content) "```sql" "") "```" "")

/-- The validation and error propagation of `NL2SQLConverter.convert`,
nat_sql_nvidia.py lines 94-106: the post-processed text must start with
SELECT case-insensitively, otherwise a ValueError is raised and re-wrapped by
the outer handler. -/
def convert (content : String) : Except String String :=
  let sql := convertPostprocess content
  if pyStartsWith (pyUpper sql) "SELECT" then Except.ok sql
  else Except.error
    ("Failed to convert question to SQL: Generated query doesn't start with SELECT: " ++ sql)

/-- The exact translated model text of the claim. -/
def c5input : String := "Here is the SQL:\n```sql\nSELECT total FROM documents\n```"

/-- C5 counterexample: fence stripping removes only the fence markers and
leaves the prose prefix in place, so post-processing does not yield
"SELECT total FROM documents", and validation then rejects the text instead
of passing it. -/
theorem fence_strip_keeps_prose :
    convertPostprocess c5input ≠ "SELECT total FROM documents"
    ∧ convert c5input =
      Except.error ("Failed to convert question to SQL: Generated query doesn't start with SELECT: Here is the SQL:\n\nSELECT total FROM documents") := by
  refine ⟨by decide, rfl⟩

/-- C5 amended: on this input the post-processing yields
"Here is the SQL:\n\nSELECT total FROM documents" — fence markers removed but
surrounding prose kept — which fails the SELECT validation, so `convert`
raises instead of returning the query. -/
theorem convert_rejects_prose_wrapped :
    convertPostprocess c5input = "Here is the SQL:\n\nSELECT total FROM documents"
    ∧ (convert c5input).isOk = false := by
  refine ⟨rfl, rfl⟩

/-- The fixed explicit column list substituted for the wildcard,
streamlit_app.py line 296. -/
def joinColumnList : String :=
  "SELECT items.id as item_id, items.description, items.quantity, items.unit_price, items.amount, documents.vendor_name, documents.invoice_number, documents.invoice_date, documents.total"

/-- The Query Safety Filter: the inline SQL cleanup of `execute_nl_query`,
streamlit_app.py lines 291-297.  Condition checks are case-insensitive
(via `.upper()` / `.lower()`), but the substitution itself is Python
`str.replace` on the literal uppercase "SELECT *". -/
def sanitizeSql (sql : String) : String :=
  if containsSub (pyUpper sql) "JOIN" && containsSub (pyUpper sql) "SELECT *" then
    if containsSub (pyLower sql) "items" && containsSub (pyLower sql) "documents" then
      pyReplace sql "SELECT *" joinColumnList
    else sql
  else sql

/-- A lowercase join query matching every case-insensitive condition of the
claim. -/
def lcJoinQuery : String :=
  "select * from items join documents on items.document_id = documents.id"

/-- C6 counterexample: the lowercase query contains a join keyword, a wildcard
select, and both table names case-insensitively, yet `sanitizeSql` returns it
unchanged (the replacement only targets the literal uppercase "SELECT *"), so
the substitution does not happen "exactly when" the case-insensitive pattern
matches. -/
theorem sanitize_lowercase_unchanged :
    containsSub (pyUpper lcJoinQuery) "JOIN" = true
    ∧ containsSub (pyUpper lcJoinQuery) "SELECT *" = true
    ∧ containsSub (pyLower lcJoinQuery) "items" = true
    ∧ containsSub (pyLower lcJoinQuery) "documents" = true
    ∧ sanitizeSql lcJoinQuery = lcJoinQuery := by
  refine ⟨rfl, rfl, rfl, rfl, rfl⟩

/-- C6 amended: the wildcard is substituted with the fixed explicit column
list exactly when the case-insensitive join/wildcard/table-name conditions
hold AND the text contains the literal uppercase "SELECT *" (every literal
occurrence is replaced); any statement not matching the case-insensitive
pattern is returned unchanged; in particular the two cited examples behave as
claimed. -/
theorem sanitize_spec :
    (∀ sql : String,
      (containsSub (pyUpper sql) "JOIN" && containsSub (pyUpper sql) "SELECT *"
        && containsSub (pyLower sql) "items"
        && containsSub (pyLower sql) "documents") = false →
      sanitizeSql sql = sql)
    ∧ sanitizeSql "SELECT * FROM items JOIN documents ON items.document_id = documents.id"
        = joinColumnList ++ " FROM items JOIN documents ON items.document_id = documents.id"
    ∧ sanitizeSql "SELECT total FROM documents" = "SELECT total FROM documents" := by
  refine ⟨fun sql h => ?_, by decide, rfl⟩
  unfold sanitizeSql
  cases hj : containsSub (pyUpper sql) "JOIN" <;>
    cases hw : containsSub (pyUpper sql) "SELECT *" <;>
      cases hi : containsSub (pyLower sql) "items" <;>
        cases hd : containsSub (pyLower sql) "documents" <;>
          simp_all

/-- C6 witness: the amended theorem's unchanged-statement part applied at a
concrete non-matching statement. -/
theorem sanitize_spec_checked : sanitizeSql "SELECT total FROM items" = "SELECT total FROM items" :=
  sanitize_spec.1 "SELECT total FROM items" (by decide)

/-- Vendor group of the Document Record (spec §3). -/
structure Vendor where
  name : String
  address : String
  phone : String
  email : String
deriving DecidableEq

/-- Order-details group of the Document Record (spec §3). -/
structure OrderDetails where
  invoice_number : String
  invoice_date : String
  due_date : String
  po_number : String
deriving DecidableEq

/-- One line item of the Document Record (spec §3): quantity is an integer,
prices are decimals, so the Python coercions int()/float() in the persistence
paths are the identity and cannot fail. -/
structure Item where
  description : String
  quantity : Int
  unit_price : Rat
  amount : Rat
deriving DecidableEq

/-- Payment-details group of the Document Record (spec §3). -/
structure PaymentDetails where
  subtotal : Rat
  tax : Rat
  total : Rat
  currency : String
deriving DecidableEq

/-- The typed Document Record of spec §3: every group and nested field
present. -/
structure DocumentRecord where
  vendor : Vendor
  order_details : OrderDetails
  items : List Item
  payment_details : PaymentDetails
deriving DecidableEq

/-- A row of the `documents` table (db.py lines 27-45).  `raw_data` holds the
serialized record (`json.dumps(ocr_result)` in both persistence paths); it is
kept as the record itself since both paths serialize the same value with the
same function. -/
structure DocRow where
  id : Nat
  vendor_name : String
  vendor_address : String
  vendor_phone : String
  vendor_email : String
  invoice_number : String
  invoice_date : String
  due_date : String
  po_number : String
  subtotal : Rat
  tax : Rat
  total : Rat
  currency : String
  raw_data : DocumentRecord
deriving DecidableEq

/-- A row of the `items` table (db.py lines 48-58). -/
structure ItemRow where
  id : Nat
  document_id : Nat
  description : String
  quantity : Int
  unit_price : Rat
  amount : Rat
deriving DecidableEq

/-- SQLite connection state: committed rows (visible to readers), pending
uncommitted rows of the current transaction, and the AUTOINCREMENT
counters. -/
structure Db where
  docs : List DocRow
  items : List ItemRow
  pendingDocs : List DocRow
  pendingItems : List ItemRow
  nextDocId : Nat
  nextItemId : Nat
deriving DecidableEq

/-- `conn.commit()`: pending rows become visible to readers. -/
def commitDb (db : Db) : Db :=
  { db with
    docs := db.docs ++ db.pendingDocs
    items := db.items ++ db.pendingItems
    pendingDocs := []
    pendingItems := [] }

/-- `conn.rollback()`: pending rows of the transaction are discarded. -/
def rollbackDb (db : Db) : Db := { db with pendingDocs := [], pendingItems := [] }

/-- Committed `items` row count for a document id: the post-persist
verification query `SELECT COUNT(*) FROM items WHERE document_id = ?`. -/
def countItemsFor (db : Db) (docId : Nat) : Nat :=
  (db.items.filter (fun it => it.document_id == docId)).length

/-- The `documents` row built by `save_ocr_to_db`, nvidia_ocr.py lines
149-181.  The `.get(key, default)` fallbacks of the source (e.g. vendor name
defaulting to "Unknown") apply only to records with missing keys, which the
typed Document Record cannot have, so every field maps directly. -/
def ocrDocRow (docId : Nat) (r : DocumentRecord) : DocRow :=
  { id := docId
    vendor_name := r.vendor.name
    vendor_address := r.vendor.address
    vendor_phone := r.vendor.phone
    vendor_email := r.vendor.email
    invoice_number := r.order_details.invoice_number
    invoice_date := r.order_details.invoice_date
    due_date := r.order_details.due_date
    po_number := r.order_details.po_number
    subtotal := r.payment_details.subtotal
    tax := r.payment_details.tax
    total := r.payment_details.total
    currency := r.payment_details.currency
    raw_data := r }

/-- The `documents` row built by `save_invoice_to_db`, streamlit_app.py lines
159-195.  The `.get(key, default)` fallbacks differ from `save_ocr_to_db`
only for records with missing keys (vendor name defaults to "" here instead
of "Unknown"), which the typed Document Record cannot have. -/
def invoiceDocRow (docId : Nat) (r : DocumentRecord) : DocRow :=
  { id := docId
    vendor_name := r.vendor.name
    vendor_address := r.vendor.address
    vendor_phone := r.vendor.phone
    vendor_email := r.vendor.email
    invoice_number := r.order_details.invoice_number
    invoice_date := r.order_details.invoice_date
    due_date := r.order_details.due_date
    po_number := r.order_details.po_number
    subtotal := r.payment_details.subtotal
    tax := r.payment_details.tax
    total := r.payment_details.total
    currency := r.payment_details.currency
    raw_data := r }

/-- Item filter of `save_ocr_to_db`, nvidia_ocr.py line 200: an item is kept
unless its description is empty AND its quantity is 0. -/
def keepItem (it : Item) : Bool := !(it.description == "" && it.quantity == 0)

/-- The item loop of `save_ocr_to_db`, nvidia_ocr.py lines 191-219: skip
empty items; a failing item insert (`fault` at that execute step) is caught
by the per-item `except` and the item is skipped, not fatal.  Returns the
connection state and `items_inserted`. -/
def saveOcrItemsLoop (fault : Nat → Bool) (docId : Nat) :
    List Item → Nat → Db → Nat → Db × Nat
  | [], _, db, inserted => (db, inserted)
  | it :: rest, step, db, inserted =>
    if it.description == "" && it.quantity == 0 then
      saveOcrItemsLoop fault docId rest step db inserted
    else if fault step then
      saveOcrItemsLoop fault docId rest (step + 1) db inserted
    else
      saveOcrItemsLoop fault docId rest (step + 1)
        { db with
          pendingItems := db.pendingItems ++
            [{ id := db.nextItemId
               document_id := docId
               description := it.description
               quantity := it.quantity
               unit_price := it.unit_price
               amount := it.amount }]
          nextItemId := db.nextItemId + 1 }
        (inserted + 1)

/-- Values compared by the post-commit verification, nvidia_ocr.py lines
226-231: the Python int `items_inserted` against `cursor.fetchone()`, which
is a one-element row (tuple).  Python `!=` between an int and a tuple is
always True. -/
inductive PyVal where
  | int : Int → PyVal
  | row : List Int → PyVal
deriving DecidableEq

/-- Outcome of `save_ocr_to_db`: the returned id (or the propagated
exception), the connection state, `items_inserted`, and whether the
post-commit verification warning fired. -/
structure OcrSaveResult where
  result : Except String Nat
  db : Db
  itemsInserted : Nat
  warned : Bool

/-- The primary Persistence Mapper `save_ocr_to_db`, nvidia_ocr.py lines
145-233.  `fault step` models the step-th `cursor.execute` raising (step 0 is
the `documents` insert, steps 1.. are the attempted item inserts).  A failing
documents insert propagates the raw exception with no rollback and no error
wrapping; item-insert failures are caught per item; after `conn.commit()` the
verification re-queries the item count and compares the int to the fetched
row, warning (never raising) on mismatch. -/
def save_ocr_to_db (fault : Nat → Bool) (db : Db) (r : DocumentRecord) :
    OcrSaveResult :=
  if fault 0 then
    { result := .error "documents insert failed", db := db
      itemsInserted := 0, warned := false }
  else
    let docId := db.nextDocId
    let db1 := { db with
      pendingDocs := db.pendingDocs ++ [ocrDocRow docId r]
      nextDocId := db.nextDocId + 1 }
    let out := saveOcrItemsLoop fault docId r.items 1 db1 0
    let db2 := commitDb out.1
    let saved := countItemsFor db2 docId
    let warned := if PyVal.int out.2 = PyVal.row [(saved : Int)] then false
      else true
    { result := .ok docId, db := db2, itemsInserted := out.2, warned := warned }

/-- The item loop of `save_invoice_to_db`, streamlit_app.py lines 200-211: no
empty-item filter and no per-item handler, so a failing insert aborts the
whole loop (`Except.error` carries the state at the failure point). -/
def saveInvoiceItemsLoop (fault : Nat → Bool) (docId : Nat) :
    List Item → Nat → Db → Except Db Db
  | [], _, db => .ok db
  | it :: rest, step, db =>
    if fault step then .error db
    else
      saveInvoiceItemsLoop fault docId rest (step + 1)
        { db with
          pendingItems := db.pendingItems ++
            [{ id := db.nextItemId
               document_id := docId
               description := it.description
               quantity := it.quantity
               unit_price := it.unit_price
               amount := it.amount }]
          nextItemId := db.nextItemId + 1 }

/-- Outcome of a persistence path as the caller sees it. -/
structure PersistOutcome where
  result : Except String Nat
  db : Db

/-- The backup Persistence Mapper `save_invoice_to_db`, streamlit_app.py
lines 154-218: the whole body is wrapped in try/except; any failure rolls the
connection back and re-raises wrapped as "Database save failed: ...". -/
def save_invoice_to_db (fault : Nat → Bool) (db : Db) (r : DocumentRecord) :
    PersistOutcome :=
  if fault 0 then
    { result := .error "Database save failed: insert failed"
      db := rollbackDb db }
  else
    let docId := db.nextDocId
    let db1 := { db with
      pendingDocs := db.pendingDocs ++ [invoiceDocRow docId r]
      nextDocId := db.nextDocId + 1 }
    match saveInvoiceItemsLoop fault docId r.items 1 db1 with
    | .error dbf =>
      { result := .error "Database save failed: insert failed"
        db := rollbackDb dbf }
    | .ok dbf => { result := .ok docId, db := commitDb dbf }

/-- The fallback chain of `process_image`, streamlit_app.py lines 242-248:
try `save_ocr_to_db`; on any exception (bare `except:`) silently fall back to
`save_invoice_to_db` on the same connection.  `fault1`/`fault2` are the
execute-fault behaviours seen by the two attempts. -/
def processSave (fault1 fault2 : Nat → Bool) (db : Db)
    (r : DocumentRecord) : PersistOutcome :=
  let res := save_ocr_to_db fault1 db r
  match res.result with
  | .ok id => { result := .ok id, db := res.db }
  | .error _ => save_invoice_to_db fault2 res.db r

/-- A fresh connection state as produced by `init_db` on an empty database
(AUTOINCREMENT ids start at 1). -/
def dbInit : Db :=
  { docs := [], items := [], pendingDocs := [], pendingItems := []
    nextDocId := 1, nextItemId := 1 }

/-- A concrete well-formed record with one kept item. -/
def recWidget : DocumentRecord :=
  { vendor := { name := "Acme", address := "", phone := "", email := "" }
    order_details :=
      { invoice_number := "INV-1", invoice_date := "", due_date := ""
        po_number := "" }
    items :=
      [{ description := "Widget", quantity := 2, unit_price := 5
         amount := 10 }]
    payment_details :=
      { subtotal := 10, tax := 0, total := 10, currency := "USD" } }

/-- A concrete record whose single item has empty description and zero
quantity. -/
def recEmptyItem : DocumentRecord :=
  { vendor := { name := "Acme", address := "", phone := "", email := "" }
    order_details :=
      { invoice_number := "INV-2", invoice_date := "", due_date := ""
        po_number := "" }
    items :=
      [{ description := "", quantity := 0, unit_price := 0, amount := 0 }]
    payment_details :=
      { subtotal := 0, tax := 0, total := 0, currency := "USD" } }

theorem filter_docid_nil (d : Nat) (l : List ItemRow)
    (h : ∀ x ∈ l, x.document_id ≠ d) :
    l.filter (fun it => it.document_id == d) = [] := by
  induction l with
  | nil => rfl
  | cons a t ih =>
    have ha : (a.document_id == d) = false := by
      simpa using h a (by simp)
    simp only [List.filter_cons, ha]
    exact ih (fun x hx => h x (List.mem_cons_of_mem _ hx))

theorem saveOcrItemsLoop_spec (docId : Nat) (items : List Item) :
    ∀ (step : Nat) (db : Db) (inserted : Nat),
    (saveOcrItemsLoop (fun _ => false) docId items step db inserted).1.docs
        = db.docs
    ∧ (saveOcrItemsLoop (fun _ => false) docId items step db inserted).1.items
        = db.items
    ∧ (saveOcrItemsLoop (fun _ => false) docId items step db
        inserted).1.pendingDocs = db.pendingDocs
    ∧ ((saveOcrItemsLoop (fun _ => false) docId items step db
        inserted).1.pendingItems.filter (fun it => it.document_id == docId)).length
        = (db.pendingItems.filter (fun it => it.document_id == docId)).length
          + (items.filter keepItem).length
    ∧ (saveOcrItemsLoop (fun _ => false) docId items step db inserted).2
        = inserted + (items.filter keepItem).length := by
  induction items with
  | nil => intro step db inserted; simp [saveOcrItemsLoop]
  | cons it rest ih =>
    intro step db inserted
    by_cases h : (it.description == "" && it.quantity == 0) = true
    · have hk : keepItem it = false := by simp [keepItem, h]
      simp only [saveOcrItemsLoop, h, if_true, List.filter_cons, hk,
        Bool.false_eq_true, if_false]
      exact ih step db inserted
    · have h' : (it.description == "" && it.quantity == 0) = false := by
        simpa using h
      have hk : keepItem it = true := by simp [keepItem, h']
      simp only [saveOcrItemsLoop, h', Bool.false_eq_true, if_false,
        List.filter_cons, hk, if_true]
      obtain ⟨h1, h2, h3, h4, h5⟩ := ih (step + 1)
        { db with
          pendingItems := db.pendingItems ++
            [{ id := db.nextItemId
               document_id := docId
               description := it.description
               quantity := it.quantity
               unit_price := it.unit_price
               amount := it.amount }]
          nextItemId := db.nextItemId + 1 }
        (inserted + 1)
      refine ⟨h1, h2, h3, ?_, by rw [h5]; simp [List.length_cons]; omega⟩
      rw [h4]
      simp [List.filter_append]
      omega

/-- C3: for every Document Record, persisting through `save_ocr_to_db` (with
no database faults) and then running the row-count query on `items` for the
newly returned document id yields exactly the number of items whose
(description, quantity) pair is not (empty, 0).  The freshness hypothesis
states that no existing row references the id SQLite is about to assign,
which AUTOINCREMENT guarantees. -/
theorem persist_item_count (db : Db) (r : DocumentRecord)
    (hfresh : ∀ it ∈ db.items ++ db.pendingItems,
      it.document_id ≠ db.nextDocId) :
    (save_ocr_to_db (fun _ => false) db r).result = Except.ok db.nextDocId
    ∧ countItemsFor (save_ocr_to_db (fun _ => false) db r).db db.nextDocId
        = (r.items.filter keepItem).length := by
  have hfi : db.items.filter (fun it => it.document_id == db.nextDocId) = [] :=
    filter_docid_nil _ _ (fun x hx => hfresh x (List.mem_append_left _ hx))
  have hfp : db.pendingItems.filter
      (fun it => it.document_id == db.nextDocId) = [] :=
    filter_docid_nil _ _ (fun x hx => hfresh x (List.mem_append_right _ hx))
  refine ⟨rfl, ?_⟩
  obtain ⟨h1, h2, h3, h4, h5⟩ := saveOcrItemsLoop_spec db.nextDocId r.items 1
    { db with
      pendingDocs := db.pendingDocs ++ [ocrDocRow db.nextDocId r]
      nextDocId := db.nextDocId + 1 } 0
  have hVis : (save_ocr_to_db (fun _ => false) db r).db
      = commitDb (saveOcrItemsLoop (fun _ => false) db.nextDocId r.items 1
          { db with
            pendingDocs := db.pendingDocs ++ [ocrDocRow db.nextDocId r]
            nextDocId := db.nextDocId + 1 } 0).1 := rfl
  rw [hVis]
  unfold countItemsFor commitDb
  dsimp only
  rw [List.filter_append, List.length_append, h2]
  dsimp only at h4 hfp hfi ⊢
  rw [hfi, h4, hfp]
  simp

/-- C3 witness: the theorem evaluated on an empty database and a record with
one kept item. -/
theorem persist_item_count_checked :
    (save_ocr_to_db (fun _ => false) dbInit recWidget).result = Except.ok 1
    ∧ countItemsFor (save_ocr_to_db (fun _ => false) dbInit recWidget).db 1
        = 1 :=
  persist_item_count dbInit recWidget (by simp [dbInit])

theorem save_ocr_noFault_eq (fault : Nat → Bool) (db : Db)
    (r : DocumentRecord) (h : fault 0 = false) :
    save_ocr_to_db fault db r =
      (let docId := db.nextDocId
       let db1 := { db with
         pendingDocs := db.pendingDocs ++ [ocrDocRow docId r]
         nextDocId := db.nextDocId + 1 }
       let out := saveOcrItemsLoop fault docId r.items 1 db1 0
       let db2 := commitDb out.1
       let saved := countItemsFor db2 docId
       let warned := if PyVal.int out.2 = PyVal.row [(saved : Int)] then false
         else true
       { result := .ok docId, db := db2, itemsInserted := out.2
         warned := warned }) := by
  unfold save_ocr_to_db
  rw [h]
  rfl

/-- C9: on every successful persist, the post-commit verification compares
the Python int `items_inserted` with the `fetchone()` row (a tuple), which
are never equal, so the warning branch fires on every persist; the mismatch
is only a log line and the function still returns the document id. -/
theorem persist_warning_always (fault : Nat → Bool) (db : Db)
    (r : DocumentRecord) (h : fault 0 = false) :
    (save_ocr_to_db fault db r).result = Except.ok db.nextDocId
    ∧ (save_ocr_to_db fault db r).warned = true := by
  rw [save_ocr_noFault_eq fault db r h]
  refine ⟨rfl, ?_⟩
  dsimp only
  exact if_neg (fun hh => PyVal.noConfusion hh)

/-- C9 witness: the theorem evaluated at a concrete faultless persist. -/
theorem persist_warning_always_checked :
    (save_ocr_to_db (fun _ => false) dbInit recWidget).warned = true :=
  (persist_warning_always (fun _ => false) dbInit recWidget rfl).2

/-- State carried by either outcome of the backup item loop. -/
def exDb : Except Db Db → Db
  | .ok d => d
  | .error d => d

theorem saveInvoiceItemsLoop_committed (fault : Nat → Bool) (docId : Nat)
    (items : List Item) : ∀ (step : Nat) (db : Db),
    (exDb (saveInvoiceItemsLoop fault docId items step db)).docs = db.docs
    ∧ (exDb (saveInvoiceItemsLoop fault docId items step db)).items
        = db.items := by
  induction items with
  | nil => intro step db; exact ⟨rfl, rfl⟩
  | cons it rest ih =>
    intro step db
    by_cases h : fault step = true
    · simp only [saveInvoiceItemsLoop, h, if_true]
      exact ⟨rfl, rfl⟩
    · have h' : fault step = false := by simpa using h
      simp only [saveInvoiceItemsLoop, h', Bool.false_eq_true, if_false]
      exact ih (step + 1) _

/-- C4 amended: the backup path `save_invoice_to_db` does satisfy the claim —
on any pre-commit failure it rolls the transaction back (committed rows
unchanged, no pending row survives, so no partial document is visible) and
surfaces the wrapped "Database save failed" error; but the primary path
`save_ocr_to_db` performs no rollback and no error wrapping, and its failure
is swallowed by the caller's bare `except:`, which silently retries via the
backup path (see the counterexample). -/
theorem backup_rollback_on_failure (fault : Nat → Bool) (db : Db)
    (r : DocumentRecord) (s : String)
    (h : (save_invoice_to_db fault db r).result = Except.error s) :
    s = "Database save failed: insert failed"
    ∧ (save_invoice_to_db fault db r).db.docs = db.docs
    ∧ (save_invoice_to_db fault db r).db.items = db.items
    ∧ (save_invoice_to_db fault db r).db.pendingDocs = []
    ∧ (save_invoice_to_db fault db r).db.pendingItems = [] := by
  by_cases h0 : fault 0 = true
  · have he : save_invoice_to_db fault db r =
        { result := .error "Database save failed: insert failed"
          db := rollbackDb db } := by
      unfold save_invoice_to_db
      rw [h0]
      rfl
    rw [he] at h ⊢
    have hs : s = "Database save failed: insert failed" := by
      simpa using h.symm
    exact ⟨hs, rfl, rfl, rfl, rfl⟩
  · have h0' : fault 0 = false := by simpa using h0
    have he : save_invoice_to_db fault db r =
        (let docId := db.nextDocId
         let db1 := { db with
           pendingDocs := db.pendingDocs ++ [invoiceDocRow docId r]
           nextDocId := db.nextDocId + 1 }
         match saveInvoiceItemsLoop fault docId r.items 1 db1 with
         | .error dbf =>
           { result := .error "Database save failed: insert failed"
             db := rollbackDb dbf }
         | .ok dbf => { result := .ok docId, db := commitDb dbf }) := by
      unfold save_invoice_to_db
      rw [h0']
      rfl
    obtain ⟨hd, hi⟩ := saveInvoiceItemsLoop_committed fault db.nextDocId
      r.items 1
      { db with
        pendingDocs := db.pendingDocs ++ [invoiceDocRow db.nextDocId r]
        nextDocId := db.nextDocId + 1 }
    rw [he] at h ⊢
    dsimp only at h ⊢
    cases hl : saveInvoiceItemsLoop fault db.nextDocId r.items 1
        { db with
          pendingDocs := db.pendingDocs ++ [invoiceDocRow db.nextDocId r]
          nextDocId := db.nextDocId + 1 } with
    | ok dbf =>
      rw [hl] at h
      have h' : Except.ok db.nextDocId = Except.error s := h
      exact Except.noConfusion h'
    | error dbf =>
      rw [hl] at hd hi h
      have h' : Except.error "Database save failed: insert failed"
          = Except.error s := h
      have hdocs : dbf.docs = db.docs := by simpa [exDb] using hd
      have hitems : dbf.items = db.items := by simpa [exDb] using hi
      have hs : "Database save failed: insert failed" = s := by
        simpa using h'
      exact ⟨hs.symm, hdocs, hitems, rfl, rfl⟩

/-- Execute-fault behaviour failing only the first item insert. -/
def failAt1 : Nat → Bool := fun n => n == 1

/-- C4 witness: the amended theorem evaluated at a concrete failing backup
persist (the item insert faults, the whole transaction is rolled back). -/
theorem backup_rollback_on_failure_checked :
    "Database save failed: insert failed"
        = "Database save failed: insert failed"
    ∧ (save_invoice_to_db failAt1 dbInit recWidget).db.docs = dbInit.docs
    ∧ (save_invoice_to_db failAt1 dbInit recWidget).db.items = dbInit.items
    ∧ (save_invoice_to_db failAt1 dbInit recWidget).db.pendingDocs = []
    ∧ (save_invoice_to_db failAt1 dbInit recWidget).db.pendingItems = [] :=
  backup_rollback_on_failure failAt1 dbInit recWidget
    "Database save failed: insert failed" rfl

/-- C4 counterexample: with the documents insert of the primary path
failing, a pre-commit persistence failure occurs, yet the caller's fallback
chain surfaces no error at all — `processSave` succeeds via the backup path —
contradicting the claim that every pre-commit failure surfaces a
PersistFailed error reporting that no data was saved (data IS saved). -/
theorem primary_failure_swallowed :
    (save_ocr_to_db (fun n => n == 0) dbInit recWidget).result
        = Except.error "documents insert failed"
    ∧ (processSave (fun n => n == 0) (fun _ => false) dbInit
        recWidget).result = Except.ok 1
    ∧ (processSave (fun n => n == 0) (fun _ => false) dbInit
        recWidget).db.docs.length = 1 := by
  refine ⟨rfl, rfl, rfl⟩

theorem save_invoice_noFault_eq (fault : Nat → Bool) (db : Db)
    (r : DocumentRecord) (h : fault 0 = false) :
    save_invoice_to_db fault db r =
      (let docId := db.nextDocId
       let db1 := { db with
         pendingDocs := db.pendingDocs ++ [invoiceDocRow docId r]
         nextDocId := db.nextDocId + 1 }
       match saveInvoiceItemsLoop fault docId r.items 1 db1 with
       | .error dbf =>
         { result := .error "Database save failed: insert failed"
           db := rollbackDb dbf }
       | .ok dbf => { result := .ok docId, db := commitDb dbf }) := by
  unfold save_invoice_to_db
  rw [h]
  rfl

theorem loops_agree (docId : Nat) :
    ∀ (items : List Item), (∀ it ∈ items, keepItem it = true) →
    ∀ (step : Nat) (db : Db) (inserted : Nat),
    saveInvoiceItemsLoop (fun _ => false) docId items step db
      = .ok (saveOcrItemsLoop (fun _ => false) docId items step db
          inserted).1 := by
  intro items
  induction items with
  | nil => intro _ step db inserted; rfl
  | cons it rest ih =>
    intro hk step db inserted
    have hkeep : keepItem it = true := hk it (by simp)
    have hskip : (it.description == "" && it.quantity == 0) = false := by
      unfold keepItem at hkeep
      cases hb : (it.description == "" && it.quantity == 0) with
      | false => rfl
      | true => rw [hb] at hkeep; exact absurd hkeep (by decide)
    simp only [saveInvoiceItemsLoop, saveOcrItemsLoop, hskip,
      Bool.false_eq_true, if_false]
    exact ih (fun x hx => hk x (List.mem_cons_of_mem _ hx)) (step + 1) _
      (inserted + 1)

/-- C10 counterexample: on a record whose single item has empty description
and zero quantity, the primary path persists no `items` row (its empty-item
filter drops it) while the backup path persists one, so the two persistence
paths are not equivalent. -/
theorem dual_path_divergence :
    countItemsFor (save_ocr_to_db (fun _ => false) dbInit recEmptyItem).db 1
        = 0
    ∧ countItemsFor (save_invoice_to_db (fun _ => false) dbInit
        recEmptyItem).db 1 = 1 := by
  exact ⟨rfl, rfl⟩

/-- C10 amended: the two persistence paths produce the same returned id, the
same `documents` row and the same `items` rows exactly on records none of
whose items has (empty description, zero quantity); records with such an item
diverge (see the counterexample), because only the primary path drops them. -/
theorem dual_path_agree (db : Db) (r : DocumentRecord)
    (h : ∀ it ∈ r.items, keepItem it = true) :
    (save_ocr_to_db (fun _ => false) db r).result
      = (save_invoice_to_db (fun _ => false) db r).result
    ∧ (save_ocr_to_db (fun _ => false) db r).db
      = (save_invoice_to_db (fun _ => false) db r).db := by
  have hl := loops_agree db.nextDocId r.items h 1
    { db with
      pendingDocs := db.pendingDocs ++ [invoiceDocRow db.nextDocId r]
      nextDocId := db.nextDocId + 1 } 0
  rw [save_invoice_noFault_eq (fun _ => false) db r rfl]
  dsimp only
  rw [hl]
  exact ⟨rfl, rfl⟩

/-- C10 witness: the amended theorem evaluated at a concrete record with no
droppable item. -/
theorem dual_path_agree_checked :
    (save_ocr_to_db (fun _ => false) dbInit recWidget).result
      = (save_invoice_to_db (fun _ => false) dbInit recWidget).result
    ∧ (save_ocr_to_db (fun _ => false) dbInit recWidget).db
      = (save_invoice_to_db (fun _ => false) dbInit recWidget).db :=
  dual_path_agree dbInit recWidget (by decide)

/-- Extension allow-list of the upload widget, streamlit_app.py line 412. -/
def uploaderTypes : List String := ["png", "jpg", "jpeg", "pdf"]

/-- The image-format check of `generate`, nvidia_ocr.py lines 29-34. -/
def imageFormatOf (image_path : String) : Except String String :=
  if pyEndsWith (pyLower image_path) ".jpg"
      || pyEndsWith (pyLower image_path) ".jpeg" then Except.ok "jpeg"
  else if pyEndsWith (pyLower image_path) ".png" then Except.ok "png"
  else Except.error "Unsupported image format. Use JPG, JPEG, or PNG"

/-- Trace of one `generate` call, nvidia_ocr.py lines 14-85: whether the
model request (`llm.invoke`) was issued, and the outcome (the raw model text
that is then handed to `parse_ocr_response`, or the wrapped exception). -/
structure GenerateTrace where
  modelCalled : Bool
  result : Except String String

/-- The Extraction Adapter `generate`, nvidia_ocr.py lines 14-85, with the
model's reply abstracted as `modelOutput`: the format check precedes
`llm.invoke`, and any raised error is re-wrapped by the outer handler. -/
def generate (modelOutput : String) (image_path : String) : GenerateTrace :=
  match imageFormatOf image_path with
  | .error e =>
    { modelCalled := false
      result := .error ("Failed to process image with NVIDIA NIM: " ++ e) }
  | .ok _ => { modelCalled := true, result := .ok modelOutput }

/-- C8 counterexample: ".pdf" is in the upload widget's accepted extension
list, so a .pdf upload is not rejected before reaching the Extraction
Adapter; it reaches `generate` and only its internal format check rejects
it. -/
theorem pdf_reaches_adapter :
    uploaderTypes.contains "pdf" = true
    ∧ imageFormatOf "invoice.pdf"
        = Except.error "Unsupported image format. Use JPG, JPEG, or PNG" := by
  exact ⟨rfl, rfl⟩

/-- C8 amended: the upload widget accepts {.png, .jpg, .jpeg, .pdf} and
rejects everything else; a file whose (lower-cased) name ends in none of
.jpg/.jpeg/.png — in particular an accepted .pdf — is rejected by the format
check inside the Extraction Adapter, before any network/model call is
made. -/
theorem unsupported_ext_no_model_call (modelOutput image_path : String)
    (h1 : (pyEndsWith (pyLower image_path) ".jpg"
        || pyEndsWith (pyLower image_path) ".jpeg") = false)
    (h2 : pyEndsWith (pyLower image_path) ".png" = false) :
    (generate modelOutput image_path).modelCalled = false
    ∧ (generate modelOutput image_path).result
        = Except.error
          "Failed to process image with NVIDIA NIM: Unsupported image format. Use JPG, JPEG, or PNG" := by
  unfold generate imageFormatOf
  rw [h1, h2]
  exact ⟨rfl, rfl⟩

/-- C8 witness: the amended theorem evaluated at a .pdf upload. -/
theorem unsupported_ext_no_model_call_checked :
    (generate "raw" "invoice.pdf").modelCalled = false
    ∧ (generate "raw" "invoice.pdf").result
        = Except.error
          "Failed to process image with NVIDIA NIM: Unsupported image format. Use JPG, JPEG, or PNG" :=
  unsupported_ext_no_model_call "raw" "invoice.pdf" (by decide) (by decide)
